import Mathlib

/-!
Verification development for the TuneIn music provider
(`music_assistant/musicproviders/tunein.py`).

Python strings are modelled as `List Char`; Python's `str.split(sep)` (for a
non-empty separator) is modelled by the fuel-based `pySplitGo`/`pySplit`, and
`sep in s` by `containsSeq`.  Python `dict`s used as request parameters are
modelled as association lists with `pySetItem` for `d[k] = v`.  Code that can
raise (`None` subscripting, missing dict keys) is modelled in `Except PyErr`.
The remote API and the event loop are modelled by passing the decoded JSON
envelope of each HTTP call as an explicit argument (`RawResult`).
-/

deriving instance DecidableEq for Except

namespace TuneIn

/-- A Python string, modelled as its list of characters. -/
abbrev PyStr := List Char

/-- Fuel-driven worker for Python's `str.split(sep)` with a non-empty
separator: scan left to right, emit the accumulated segment whenever `sep`
is a prefix of the remainder, skipping the separator.  The fuel only exists
to make the recursion structural; `pySplit` supplies enough fuel that the
fuel-exhausted branch is never taken. -/
def pySplitGo (sep : PyStr) : Nat → PyStr → PyStr → List PyStr
  | _, acc, [] => [acc.reverse]
  | 0, acc, l => [acc.reverse ++ l]
  | Nat.succ fuel, acc, c :: rest =>
    if sep ≠ [] ∧ sep.isPrefixOf (c :: rest) = true then
      acc.reverse :: pySplitGo sep fuel [] (rest.drop (sep.length - 1))
    else
      pySplitGo sep fuel (c :: acc) rest

/-- Python `s.split(sep)` for a non-empty `sep`. -/
def pySplit (sep s : PyStr) : List PyStr :=
  pySplitGo sep s.length [] s

/-- Python `sep in s`: some suffix of `s` starts with `sep`. -/
def containsSeq (sep : PyStr) : PyStr → Bool
  | [] => sep.isPrefixOf []
  | c :: rest => sep.isPrefixOf (c :: rest) || containsSeq sep rest

/-- Request parameters: a Python dict of string keys and values, as an
association list in insertion order. -/
abbrev Params := List (PyStr × PyStr)

/-- Python `k in d` on a dict. -/
def hasKey (k : PyStr) : Params → Bool
  | [] => false
  | kv :: rest => if k = kv.1 then true else hasKey k rest

/-- Python `d.get(k)` on a dict: the value bound to `k`, if any. -/
def pyGet (k : PyStr) : Params → Option PyStr
  | [] => none
  | kv :: rest => if k = kv.1 then some kv.2 else pyGet k rest

/-- Python `d[k] = v` on a dict: overwrite the binding in place when the key
is present, append it otherwise. -/
def pySetItem (d : Params) (k v : PyStr) : Params :=
  if hasKey k d then
    d.map (fun kv => if k = kv.1 then (k, v) else kv)
  else
    d ++ [(k, v)]

/-- Exceptions this code can raise. -/
inductive PyErr where
  /-- A missing dict key, e.g. `details["text"]` or `result["body"]`. -/
  | keyError : PyErr
  /-- Subscripting `None`, e.g. `stream_info["body"]` when `stream_info` is
  the `None` sentinel returned by `__get_data`. -/
  | typeError : PyErr
deriving DecidableEq

/-- The decoded JSON envelope of one remote call, as `__get_data` sees it
after `response.json()`.  `falsy` is an empty/`None` decode (`not result`),
`withErr` a truthy envelope containing an `error` key, `valid` a truthy
envelope without one; the payload is the envelope's optional `body` field. -/
inductive RawResult (β : Type) where
  | falsy : RawResult β
  | withErr : Option β → RawResult β
  | valid : Option β → RawResult β
deriving DecidableEq

/-- Lines written through `LOGGER.error` by `__get_data`. -/
inductive LogLine where
  | url : PyStr → LogLine
  | params : Params → LogLine
deriving DecidableEq

/-- Modelled from the spec: `TrackQuality` lives in the missing `..models`
module; only the three lossy constructors used by `tunein.py` are modelled. -/
inductive TrackQuality where
  | LOSSY_MP3 : TrackQuality
  | LOSSY_OGG : TrackQuality
  | LOSSY_AAC : TrackQuality
deriving DecidableEq

/-- One entry of a `Tune.ashx` stream listing (`media_type`/`url` pair). -/
structure StreamEntry where
  media_type : PyStr
  url : PyStr
deriving DecidableEq

/-- One dict appended to `radio.provider_ids` by `__parse_radio`; the spec
calls it a StreamVariant. -/
structure StreamVariant where
  provider : PyStr
  item_id : PyStr
  quality : TrackQuality
  details : PyStr
deriving DecidableEq

/-- Modelled from the spec: the `Radio` entity lives in the missing
`..models` module.  Only the fields `tunein.py` touches are modelled; a fresh
`Radio()` starts with an empty `provider_ids` sequence, and the `metadata`
mapping is modelled by its only used key, `image` (absent when neither
`image` nor `logo` is present on the item). -/
structure Radio where
  item_id : PyStr
  provider : PyStr
  name : PyStr
  provider_ids : List StreamVariant
  metadata_image : Option PyStr
deriving DecidableEq

/-- One raw catalog item (`details` dict) from `Browse.ashx`/`Describe.ashx`.
`type` and `preset_id` are the keys the code reads unconditionally; the
optional fields model key presence in the dict. -/
structure CatalogItem where
  type : PyStr
  preset_id : PyStr
  name : Option PyStr
  text : Option PyStr
  image : Option PyStr
  logo : Option PyStr
deriving DecidableEq

/-- One element of a `Describe.ashx` body, with its optional `children`. -/
structure DescribeNode where
  children : Option (List CatalogItem)
deriving DecidableEq

/-- Everything observable about one `__get_data` call: the parameter dict
after its in-place augmentation (caller-visible, since Python mutates the
caller's dict), the returned envelope (`none` is the Python `None`
sentinel; the inner option is presence of the `body` key), and the log. -/
structure GetDataResult (β : Type) where
  params : Params
  result : Option (Option β)
  log : List LogLine
deriving DecidableEq

/-! ### String and key constants of the source -/

/-- Provider tag `self.prov_id = 'tunein'`. -/
def tuneinTag : PyStr := "tunein".data

/-- Separator `'--'` of composite stream ids. -/
def sepDashes : PyStr := "--".data

/-- Delimiter `" | "` of the combined text field. -/
def sepSpaceBar : PyStr := " | ".data

/-- Delimiter `" ("` that starts a trailing parenthetical. -/
def sepSpaceParen : PyStr := " (".data

/-- Catalog item type `"audio"`. -/
def audioType : PyStr := "audio".data

/-- Media type `'aac'`. -/
def aacType : PyStr := "aac".data

/-- Media type `'ogg'`. -/
def oggType : PyStr := "ogg".data

/-- The `"type": "url"` constant of the stream-details dict. -/
def urlKind : PyStr := "url".data

/-- Base URL `'https://opml.radiotime.com/'`. -/
def apiBase : PyStr := "https://opml.radiotime.com/".data

/-- Endpoint `"Browse.ashx"`. -/
def browseEndpoint : PyStr := "Browse.ashx".data

/-- Endpoint `"Describe.ashx"`. -/
def describeEndpoint : PyStr := "Describe.ashx".data

/-- Endpoint `"Tune.ashx"`. -/
def tuneEndpoint : PyStr := "Tune.ashx".data

/-- Key `'render'`. -/
def kRender : PyStr := "render".data

/-- Value `'json'`. -/
def vJson : PyStr := "json".data

/-- Key `'formats'`. -/
def kFormats : PyStr := "formats".data

/-- Value `'ogg,aac,wma,mp3'`. -/
def vFormats : PyStr := "ogg,aac,wma,mp3".data

/-- Key `'username'`. -/
def kUsername : PyStr := "username".data

/-- Key `'partnerId'`. -/
def kPartnerId : PyStr := "partnerId".data

/-- Value `'1'`. -/
def vPartnerId : PyStr := "1".data

/-- Key `"c"`. -/
def kC : PyStr := "c".data

/-- Value `"presets"`. -/
def vPresets : PyStr := "presets".data

/-- Value `"composite"`. -/
def vComposite : PyStr := "composite".data

/-- Key `"detail"`. -/
def kDetail : PyStr := "detail".data

/-- Value `"listing"`. -/
def vListing : PyStr := "listing".data

/-- Key `"id"`. -/
def kId : PyStr := "id".data

/-! ### The embedded operations -/

/-- URL construction `'https://opml.radiotime.com/%s' % endpoint`. -/
def apiUrl (endpoint : PyStr) : PyStr := apiBase ++ endpoint

/-- The four in-place parameter assignments of `__get_data`:
`params['render'] = 'json'`, `params['formats'] = 'ogg,aac,wma,mp3'`,
`params['username'] = self._username`, `params['partnerId'] = '1'`. -/
def augmentParams (username : PyStr) (p : Params) : Params :=
  pySetItem (pySetItem (pySetItem (pySetItem p kRender vJson) kFormats vFormats)
    kUsername username) kPartnerId vPartnerId

/-- Embedding of `TuneInProvider.__get_data`: augment the params in place,
issue the GET (the decoded envelope is the `raw` argument), and if the
decode is falsy or the envelope has an `error` key, log the URL and the
(augmented) params and return the `None` sentinel; otherwise return the
envelope.  The `@use_cache(7)` decorator lives in the missing `..cache`
module; per the spec the cache layer is transparent on a miss and parameter
augmentation precedes the cache lookup, so it is not modelled here. -/
def get_data (endpoint username : PyStr) (params : Params) (raw : RawResult β) :
    GetDataResult β :=
  let url := apiUrl endpoint
  let p := augmentParams username params
  match raw with
  | RawResult.falsy => ⟨p, none, [LogLine.url url, LogLine.params p]⟩
  | RawResult.withErr _ => ⟨p, none, [LogLine.url url, LogLine.params p]⟩
  | RawResult.valid b => ⟨p, some b, []⟩

/-- Embedding of `TuneInProvider.__get_stream_urls`: one `Tune.ashx` call
with `params = {"id": radio_id}`, returned as-is. -/
def get_stream_urls (username radio_id : PyStr) (raw : RawResult (List StreamEntry)) :
    GetDataResult (List StreamEntry) :=
  get_data tuneEndpoint username [(kId, radio_id)] raw

/-- The name-from-`text` branch of `__parse_radio`:
`if " | " in name: name = name.split(" | ")[1]` then
`name = name.split(" (")[0]`. -/
def deriveNameFromText (t : PyStr) : PyStr :=
  let name := if containsSeq sepSpaceBar t then ((pySplit sepSpaceBar t).get? 1).getD [] else t
  (pySplit sepSpaceParen name).headD []

/-- The quality classification of `__parse_radio`: `aac` to LOSSY_AAC,
`ogg` to LOSSY_OGG, anything else to LOSSY_MP3. -/
def classifyQuality (mt : PyStr) : TrackQuality :=
  if mt = aacType then TrackQuality.LOSSY_AAC
  else if mt = oggType then TrackQuality.LOSSY_OGG
  else TrackQuality.LOSSY_MP3

/-- The composite variant id `"%s--%s" % (details['preset_id'], stream["media_type"])`. -/
def buildVariantId (station_id media_type : PyStr) : PyStr :=
  station_id ++ sepDashes ++ media_type

/-- Embedding of `TuneInProvider.__parse_radio`.  `stream_info` is the value
`__get_stream_urls` returned for this station: the outer `none` is the
`None` sentinel (subscripting it raises `TypeError`), the inner option is
presence of the `body` key (a missing key raises `KeyError`).  Name
derivation happens first, so a missing `text` (with no `name`) raises its
`KeyError` before the stream listing is touched. -/
def parse_radio (item : CatalogItem)
    (stream_info : Option (Option (List StreamEntry))) : Except PyErr Radio :=
  match (match item.name with
         | some n => Except.ok n
         | none =>
           match item.text with
           | some t => Except.ok (deriveNameFromText t)
           | none => Except.error PyErr.keyError) with
  | Except.error e => Except.error e
  | Except.ok nm =>
    match stream_info with
    | none => Except.error PyErr.typeError
    | some none => Except.error PyErr.keyError
    | some (some entries) =>
      Except.ok
        { item_id := item.preset_id
          provider := tuneinTag
          name := nm
          provider_ids := entries.map (fun s =>
            { provider := tuneinTag
              item_id := buildVariantId item.preset_id s.media_type
              quality := classifyQuality s.media_type
              details := s.url })
          metadata_image :=
            match item.image with
            | some i => some i
            | none => item.logo }

/-- Embedding of `TuneInProvider.get_radios`: one cache-bypassing
`Browse.ashx` call; when the result is truthy and has a `body`, parse every
item of type `"audio"` in order (each parse makes its own `Tune.ashx` call,
whose envelope `rawTune` supplies per station id); otherwise return `[]`. -/
def get_radios (username : PyStr) (rawBrowse : RawResult (List CatalogItem))
    (rawTune : PyStr → RawResult (List StreamEntry)) : Except PyErr (List Radio) :=
  match (get_data browseEndpoint username [(kC, vPresets)] rawBrowse).result with
  | some (some body) =>
    (body.filter (fun it => it.type == audioType)).mapM (fun it =>
      parse_radio it (get_stream_urls username it.preset_id (rawTune it.preset_id)).result)
  | _ => Except.ok []

/-- Embedding of `TuneInProvider.get_radio`: one cache-bypassing
`Describe.ashx` call; when the result, its `body`, and the first body
element's `children` are all truthy (Python truthiness: absent, `None`, and
empty lists are falsy), parse the first child; otherwise return `None`. -/
def get_radio (username radio_id : PyStr) (rawDescribe : RawResult (List DescribeNode))
    (rawTune : PyStr → RawResult (List StreamEntry)) : Except PyErr (Option Radio) :=
  match (get_data describeEndpoint username
      [(kC, vComposite), (kDetail, vListing), (kId, radio_id)] rawDescribe).result with
  | some (some (node :: _)) =>
    match node.children with
    | some (item :: _) =>
      (parse_radio item
        (get_stream_urls username item.preset_id (rawTune item.preset_id)).result).map some
    | _ => Except.ok none
  | _ => Except.ok none

/-- The id-splitting prologue of `get_stream_details`:
`radio_id = stream_id.split('--')[0]` and
`media_type = stream_id.split('--')[1] if len(...) > 1 else ''`. -/
def splitStreamId (stream_id : PyStr) : PyStr × PyStr :=
  let parts := pySplit sepDashes stream_id
  (parts.headD [], if parts.length > 1 then (parts.get? 1).getD [] else [])

/-- The stream-details dict returned by `get_stream_details`. -/
structure StreamDetails where
  kind : PyStr
  path : PyStr
  content_type : PyStr
  sample_rate : Nat
  bit_depth : Nat
deriving DecidableEq

/-- Embedding of `TuneInProvider.get_stream_details`: split the composite
id, fetch the stream listing, and return the first entry whose `media_type`
equals the discriminator (or any entry when the discriminator is empty) as
a details dict with the constants 44100/16; `Except.ok none` models the
final `return {}`.  When `__get_stream_urls` returned the `None` sentinel
the subscript `stream_info["body"]` raises `TypeError`. -/
def get_stream_details (username stream_id : PyStr)
    (rawTune : RawResult (List StreamEntry)) : Except PyErr (Option StreamDetails) :=
  let sp := splitStreamId stream_id
  match (get_stream_urls username sp.1 rawTune).result with
  | none => Except.error PyErr.typeError
  | some none => Except.error PyErr.keyError
  | some (some entries) =>
    Except.ok ((entries.find? (fun s => s.media_type == sp.2 || sp.2.isEmpty)).map
      (fun s =>
        { kind := urlKind
          path := s.url
          content_type := s.media_type
          sample_rate := 44100
          bit_depth := 16 }))

/-- Modelled from the spec: a constructed provider carries the two
credentials; the surrounding `mass` collaborator is not modelled. -/
structure TuneInProvider where
  username : PyStr
  password : PyStr
deriving DecidableEq

/-- Python truthiness of an optional boolean config value. -/
def truthyBool : Option Bool → Bool
  | none => false
  | some b => b

/-- Python truthiness of an optional string config value. -/
def truthyStr : Option PyStr → Bool
  | none => false
  | some s => !s.isEmpty

/-- Embedding of the module-level `setup(mass)` factory: read the three
config values and construct the provider only when all three are truthy;
`none` models the `return False` "not available" signal. -/
def setup (enabled : Option Bool) (username password : Option PyStr) :
    Option TuneInProvider :=
  if truthyBool enabled && truthyStr username && truthyStr password then
    some { username := username.getD [], password := password.getD [] }
  else
    none

/-! ### Claim-side definitions, written from the spec's words -/

/-- Name derivation as the spec words it: when the delimiter `" | "` occurs
in the text, keep only the segment after the first occurrence; then
truncate at the first occurrence of `" ("`. -/
def nameDerivationSpec (t : PyStr) : PyStr :=
  let afterBar :=
    if containsSeq sepSpaceBar t then ((pySplit sepSpaceBar t).get? 1).getD [] else t
  (pySplit sepSpaceParen afterBar).headD []

/-- Quality mapping as the spec words it: `aac` to LOSSY_AAC, `ogg` to
LOSSY_OGG, every other string to LOSSY_MP3. -/
def qualitySpec (mt : PyStr) : TrackQuality :=
  if mt = aacType then TrackQuality.LOSSY_AAC
  else if mt = oggType then TrackQuality.LOSSY_OGG
  else TrackQuality.LOSSY_MP3

/-- Stream resolution as the spec words it: split the composite id on the
separator; return the first listing entry whose `media_type` equals the
discriminator, or the first entry unconditionally when no discriminator was
supplied, carrying the entry's url and media type and the declared
constants `sample_rate = 44100`, `bit_depth = 16`; `none` when no entry
matches. -/
def resolveStreamSpec (stream_id : PyStr) (entries : List StreamEntry) :
    Option StreamDetails :=
  let parts := pySplit sepDashes stream_id
  let disc := if parts.length > 1 then (parts.get? 1).getD [] else []
  let chosen :=
    if disc = [] then entries.head? else entries.find? (fun s => s.media_type == disc)
  chosen.map (fun s =>
    { kind := urlKind
      path := s.url
      content_type := s.media_type
      sample_rate := 44100
      bit_depth := 16 })

/-- An envelope the error path of `__get_data` fires on: a falsy decode or
one containing an `error` key. -/
def RawResult.isBad : RawResult β → Bool
  | RawResult.valid _ => false
  | _ => true

/-! ### Concrete evaluation inputs -/

/-- A catalog item with no `name` key and the spec's example `text`. -/
def jazzItem : CatalogItem :=
  { type := audioType, preset_id := "s1".data,
    name := none, text := some "Jazz FM | Smooth Jazz (128k aac)".data,
    image := none, logo := none }

/-- The Radio `__parse_radio` builds from `jazzItem` and an empty listing. -/
def jazzRadio : Radio :=
  { item_id := "s1".data, provider := tuneinTag, name := "Smooth Jazz".data,
    provider_ids := [], metadata_image := none }

/-- A named catalog item for the quality-mapping evaluation. -/
def c4Item : CatalogItem :=
  { type := audioType, preset_id := "p4".data, name := some "Station Four".data,
    text := none, image := none, logo := none }

/-- A stream listing offering aac, ogg and wma renditions. -/
def c4Entries : List StreamEntry :=
  [ { media_type := "aac".data, url := "http://a".data },
    { media_type := "ogg".data, url := "http://o".data },
    { media_type := "wma".data, url := "http://w".data } ]

/-- The Radio `__parse_radio` builds from `c4Item` and `c4Entries`. -/
def c4Radio : Radio :=
  { item_id := "p4".data, provider := tuneinTag, name := "Station Four".data,
    provider_ids :=
      [ { provider := tuneinTag, item_id := "p4--aac".data,
          quality := TrackQuality.LOSSY_AAC, details := "http://a".data },
        { provider := tuneinTag, item_id := "p4--ogg".data,
          quality := TrackQuality.LOSSY_OGG, details := "http://o".data },
        { provider := tuneinTag, item_id := "p4--wma".data,
          quality := TrackQuality.LOSSY_MP3, details := "http://w".data } ],
    metadata_image := none }

/-- A named catalog item with the spec's example station id `"12345"`. -/
def c5Item : CatalogItem :=
  { type := audioType, preset_id := "12345".data, name := some "Station Five".data,
    text := none, image := none, logo := none }

/-- A single aac stream entry. -/
def c5Entry : StreamEntry := { media_type := "aac".data, url := "http://s".data }

/-- The Radio `__parse_radio` builds from `c5Item` and `[c5Entry]`. -/
def c5Radio : Radio :=
  { item_id := "12345".data, provider := tuneinTag, name := "Station Five".data,
    provider_ids :=
      [ { provider := tuneinTag, item_id := "12345--aac".data,
          quality := TrackQuality.LOSSY_AAC, details := "http://s".data } ],
    metadata_image := none }

/-- A well-named catalog item used for the soft-failure evaluation. -/
def c6GoodItem : CatalogItem :=
  { type := audioType, preset_id := "600".data, name := some "Station Six".data,
    text := none, image := none, logo := none }

/-- A well-named catalog item whose stream listing comes back absent. -/
def c6BadItem : CatalogItem :=
  { type := audioType, preset_id := "601".data, name := some "Station Six B".data,
    text := none, image := none, logo := none }

/-- A catalog item whose explicit `name` key holds the empty string. -/
def c7BadItem : CatalogItem :=
  { type := audioType, preset_id := "700".data, name := some [],
    text := none, image := none, logo := none }

/-- A catalog item with a non-empty explicit name. -/
def c7wItem : CatalogItem :=
  { type := audioType, preset_id := "701".data, name := some "Radio X".data,
    text := none, image := none, logo := none }

/-- The Radio `__parse_radio` builds from `c7wItem` and an empty listing. -/
def c7wRadio : Radio :=
  { item_id := "701".data, provider := tuneinTag, name := "Radio X".data,
    provider_ids := [], metadata_image := none }

end TuneIn

namespace TuneIn

theorem pySplitGo_nil (sep : PyStr) (fuel : Nat) (acc : PyStr) :
    pySplitGo sep fuel acc [] = [acc.reverse] := by
  cases fuel <;> rfl

theorem pySplitGo_cons_pos (sep : PyStr) (fuel : Nat) (acc : PyStr) (c : Char) (rest : PyStr)
    (h1 : sep ≠ []) (h2 : sep.isPrefixOf (c :: rest) = true) :
    pySplitGo sep (fuel + 1) acc (c :: rest) =
      acc.reverse :: pySplitGo sep fuel [] (rest.drop (sep.length - 1)) := by
  simp [pySplitGo, h1, h2]

theorem pySplitGo_cons_neg (sep : PyStr) (fuel : Nat) (acc : PyStr) (c : Char) (rest : PyStr)
    (h2 : sep.isPrefixOf (c :: rest) = false) :
    pySplitGo sep (fuel + 1) acc (c :: rest) = pySplitGo sep fuel (c :: acc) rest := by
  simp [pySplitGo, h2]

theorem pySplitGo_no_occurrence (sep : PyStr) :
    ∀ (l : PyStr) (fuel : Nat) (acc : PyStr), l.length ≤ fuel →
      containsSeq sep l = false → pySplitGo sep fuel acc l = [acc.reverse ++ l] := by
  intro l
  induction l with
  | nil => intro fuel acc _ _; simp [pySplitGo_nil]
  | cons c rest ih =>
    intro fuel acc hfuel hc
    simp only [containsSeq, Bool.or_eq_false_iff] at hc
    cases fuel with
    | zero => simp at hfuel
    | succ f =>
      rw [pySplitGo_cons_neg sep f acc c rest hc.1]
      rw [ih f (c :: acc) (by simpa using hfuel) hc.2]
      simp

theorem isPrefixOf_append_self : ∀ (l m : PyStr), l.isPrefixOf (l ++ m) = true
  | [], _ => by simp [List.isPrefixOf]
  | a :: as, m => by simp [List.isPrefixOf, isPrefixOf_append_self as m]

theorem containsSeq_append_of_isPrefixOf (sep : PyStr) :
    ∀ (u t : PyStr), sep.isPrefixOf t = true → containsSeq sep (u ++ t) = true := by
  intro u
  induction u with
  | nil =>
    intro t h
    cases t with
    | nil => simpa [containsSeq] using h
    | cons c r => simp [containsSeq, h]
  | cons a u' ih =>
    intro t h
    simp [containsSeq, ih t h]

theorem pySplitGo_scan (sep m : PyStr) (hsep : sep ≠ [])
    (hm : containsSeq sep m = false) :
    ∀ (s : PyStr) (fuel : Nat) (acc : PyStr),
      (s ++ sep ++ m).length ≤ fuel →
      (∀ u t, u ++ t = s → t ≠ [] → sep.isPrefixOf (t ++ sep ++ m) = false) →
      pySplitGo sep fuel acc (s ++ sep ++ m) = [acc.reverse ++ s, m] := by
  intro s
  induction s with
  | nil =>
    intro fuel acc hfuel _
    obtain ⟨d, ds, rfl⟩ : ∃ d ds, sep = d :: ds := by
      cases sep with
      | nil => exact absurd rfl hsep
      | cons d ds => exact ⟨d, ds, rfl⟩
    simp only [List.nil_append, List.cons_append] at hfuel ⊢
    cases fuel with
    | zero => simp at hfuel
    | succ f =>
      have hpre : (d :: ds).isPrefixOf (d :: (ds ++ m)) = true :=
        isPrefixOf_append_self (d :: ds) m
      rw [pySplitGo_cons_pos (d :: ds) f acc d (ds ++ m) hsep hpre]
      have hdrop : (ds ++ m).drop ((d :: ds).length - 1) = m := by
        simp [List.drop_left]
      rw [hdrop]
      rw [pySplitGo_no_occurrence (d :: ds) m f [] (by simp at hfuel; omega) hm]
      simp
  | cons a s' ih =>
    intro fuel acc hfuel H
    have h0 : sep.isPrefixOf ((a :: s') ++ sep ++ m) = false :=
      H [] (a :: s') rfl (by simp)
    simp only [List.cons_append] at h0 hfuel ⊢
    cases fuel with
    | zero => simp at hfuel
    | succ f =>
      rw [pySplitGo_cons_neg sep f acc a (s' ++ sep ++ m) h0]
      rw [ih f (a :: acc) (by simpa using hfuel)
        (fun u t hu ht => H (a :: u) t (by rw [← hu]; simp) ht)]
      simp

theorem pySplit_roundtrip (s m : PyStr)
    (hs : containsSeq sepDashes s = false)
    (hlast : s.getLast? ≠ some '-')
    (hm : containsSeq sepDashes m = false) :
    pySplit sepDashes (s ++ sepDashes ++ m) = [s, m] := by
  have hsep : sepDashes ≠ [] := by decide
  have H : ∀ u t, u ++ t = s → t ≠ [] →
      sepDashes.isPrefixOf (t ++ sepDashes ++ m) = false := by
    intro u t hut ht
    match t with
    | [] => exact absurd rfl ht
    | [x] =>
      have hx : x ≠ '-' := by
        intro hx
        apply hlast
        rw [← hut, hx]
        exact List.getLast?_concat u
      show List.isPrefixOf ['-', '-'] (x :: '-' :: '-' :: m) = false
      simp [List.isPrefixOf]
      intro h
      exact hx h.symm
    | x :: y :: t' =>
      show List.isPrefixOf ['-', '-'] (x :: y :: (t' ++ ['-', '-'] ++ m)) = false
      by_cases hx : x = '-'
      · by_cases hy : y = '-'
        · exfalso
          have hpre : sepDashes.isPrefixOf (x :: y :: t') = true := by
            subst hx; subst hy; simp [sepDashes, List.isPrefixOf]
          have hc := containsSeq_append_of_isPrefixOf sepDashes u (x :: y :: t') hpre
          rw [hut] at hc
          rw [hc] at hs
          simp at hs
        · simp [List.isPrefixOf]
          intro _ h2
          exact hy h2.symm
      · simp [List.isPrefixOf]
        intro h1
        exact absurd h1.symm hx
  have hmain := pySplitGo_scan sepDashes m hsep hm s
    ((s ++ sepDashes ++ m).length) [] (le_refl _) H
  simpa [pySplit] using hmain

theorem splitStreamId_roundtrip (s m : PyStr)
    (hs : containsSeq sepDashes s = false)
    (hlast : s.getLast? ≠ some '-')
    (hm : containsSeq sepDashes m = false) :
    splitStreamId (buildVariantId s m) = (s, m) := by
  unfold splitStreamId buildVariantId
  rw [pySplit_roundtrip s m hs hlast hm]
  simp

end TuneIn

namespace TuneIn

theorem parse_radio_ok_fields (item : CatalogItem) (entries : List StreamEntry) (r : Radio)
    (h : parse_radio item (some (some entries)) = Except.ok r) :
    r.item_id = item.preset_id ∧
    r.provider_ids = entries.map (fun s =>
      { provider := tuneinTag
        item_id := buildVariantId item.preset_id s.media_type
        quality := classifyQuality s.media_type
        details := s.url }) ∧
    (∀ n, item.name = some n → r.name = n) ∧
    (item.name = none → ∀ t, item.text = some t → r.name = deriveNameFromText t) := by
  cases hn : item.name with
  | some n =>
    simp [parse_radio, hn] at h
    subst h
    simp
  | none =>
    cases ht : item.text with
    | none => simp [parse_radio, hn, ht] at h
    | some t =>
      simp [parse_radio, hn, ht] at h
      subst h
      simp

theorem parse_radio_ok_name (item : CatalogItem)
    (si : Option (Option (List StreamEntry))) (r : Radio)
    (h : parse_radio item si = Except.ok r) :
    (∀ n, item.name = some n → r.name = n) ∧
    (item.name = none → ∀ t, item.text = some t → r.name = deriveNameFromText t) ∧
    (item.name = none → item.text ≠ none) := by
  rcases si with _ | (_ | entries)
  · cases hn : item.name <;> cases ht : item.text <;> simp [parse_radio, hn, ht] at h
  · cases hn : item.name <;> cases ht : item.text <;> simp [parse_radio, hn, ht] at h
  · have hf := parse_radio_ok_fields item entries r h
    refine ⟨hf.2.2.1, hf.2.2.2, ?_⟩
    intro hn ht
    simp [parse_radio, hn, ht] at h

theorem pyGet_map_overwrite (k v k' : PyStr) (h : k' ≠ k) :
    ∀ d : Params,
      pyGet k' (d.map (fun kv => if k = kv.1 then (k, v) else kv)) = pyGet k' d := by
  intro d
  induction d with
  | nil => rfl
  | cons a d' ih =>
    by_cases hk : k = a.1
    · rw [List.map_cons, if_pos hk]
      simp [pyGet, ← hk, h, ih]
    · by_cases h2 : k' = a.1 <;> simp [pyGet, hk, h2, ih]

theorem pyGet_append_single (k v k' : PyStr) (h : k' ≠ k) :
    ∀ d : Params, pyGet k' (d ++ [(k, v)]) = pyGet k' d := by
  intro d
  induction d with
  | nil => simp [pyGet, h]
  | cons a d' ih =>
    by_cases h2 : k' = a.1 <;> simp [pyGet, h2, ih]

theorem pyGet_pySetItem_ne (d : Params) (k v k' : PyStr) (h : k' ≠ k) :
    pyGet k' (pySetItem d k v) = pyGet k' d := by
  unfold pySetItem
  by_cases hK : hasKey k d = true
  · simp [hK, pyGet_map_overwrite k v k' h]
  · simp [hK, pyGet_append_single k v k' h]

theorem pyGet_pySetItem_self (k v : PyStr) :
    ∀ d : Params, pyGet k (pySetItem d k v) = some v := by
  intro d
  induction d with
  | nil => simp [pySetItem, hasKey, pyGet]
  | cons a d' ih =>
    by_cases hk : k = a.1
    · simp [pySetItem, hasKey, hk, pyGet]
    · by_cases hA : hasKey k d' = true
      · have hset : pySetItem d' k v =
            d'.map (fun kv => if k = kv.1 then (k, v) else kv) := by
          simp [pySetItem, hA]
        rw [hset] at ih
        simp [pySetItem, hasKey, hk, hA, pyGet]
        exact ih
      · have hset : pySetItem d' k v = d' ++ [(k, v)] := by
          simp [pySetItem, hA]
        rw [hset] at ih
        simp [pySetItem, hasKey, hk, hA, pyGet]
        exact ih

end TuneIn

namespace TuneIn

theorem find?_const_true {α : Type} (l : List α) :
    l.find? (fun _ => true) = l.head? := by
  cases l <;> simp [List.find?]

theorem get_data_params {β : Type} (ep u : PyStr) (p : Params) (raw : RawResult β) :
    (get_data ep u p raw).params = augmentParams u p := by
  cases raw <;> rfl

theorem augmentParams_nil (u : PyStr) :
    augmentParams u [] =
      [(kRender, vJson), (kFormats, vFormats), (kUsername, u), (kPartnerId, vPartnerId)] := rfl

theorem augmentParams_idem (u : PyStr) :
    augmentParams u (augmentParams u []) = augmentParams u [] := rfl

theorem augment_render (u : PyStr) (p : Params) :
    pyGet kRender (augmentParams u p) = some vJson := by
  unfold augmentParams
  rw [pyGet_pySetItem_ne _ kPartnerId vPartnerId kRender (by decide),
      pyGet_pySetItem_ne _ kUsername u kRender (by decide),
      pyGet_pySetItem_ne _ kFormats vFormats kRender (by decide),
      pyGet_pySetItem_self]

theorem augment_formats (u : PyStr) (p : Params) :
    pyGet kFormats (augmentParams u p) = some vFormats := by
  unfold augmentParams
  rw [pyGet_pySetItem_ne _ kPartnerId vPartnerId kFormats (by decide),
      pyGet_pySetItem_ne _ kUsername u kFormats (by decide),
      pyGet_pySetItem_self]

theorem augment_username (u : PyStr) (p : Params) :
    pyGet kUsername (augmentParams u p) = some u := by
  unfold augmentParams
  rw [pyGet_pySetItem_ne _ kPartnerId vPartnerId kUsername (by decide),
      pyGet_pySetItem_self]

theorem augment_partner (u : PyStr) (p : Params) :
    pyGet kPartnerId (augmentParams u p) = some vPartnerId := by
  unfold augmentParams
  rw [pyGet_pySetItem_self]

theorem exceptMapM_singleton_error {α γ : Type} (f : α → Except PyErr γ) (a : α) (e : PyErr)
    (h : f a = Except.error e) : List.mapM f [a] = Except.error e := by
  simp [List.mapM, List.mapM.loop, h]

end TuneIn

namespace TuneIn

/-- C1 (amended): when the decoded envelope is empty or carries an `error`
key, `__get_data` logs the URL and the augmented parameters and returns the
`None` sentinel; `get_radios` then returns the empty list and `get_radio`
returns absent, but `get_stream_details` raises a `TypeError` instead of
returning an empty result, and `get_radios` likewise raises when a
station's stream-listing envelope is bad during parsing. -/
theorem error_envelope_behavior :
    (∀ (β : Type) (ep u : PyStr) (p : Params) (raw : RawResult β),
      raw.isBad = true →
        (get_data ep u p raw).result = none ∧
        (get_data ep u p raw).log =
          [LogLine.url (apiUrl ep), LogLine.params (augmentParams u p)]) ∧
    (∀ (u : PyStr) (rawB : RawResult (List CatalogItem))
        (tune : PyStr → RawResult (List StreamEntry)),
      rawB.isBad = true → get_radios u rawB tune = Except.ok []) ∧
    (∀ (u rid : PyStr) (rawD : RawResult (List DescribeNode))
        (tune : PyStr → RawResult (List StreamEntry)),
      rawD.isBad = true → get_radio u rid rawD tune = Except.ok none) ∧
    (∀ (u sid : PyStr) (rawT : RawResult (List StreamEntry)),
      rawT.isBad = true →
        get_stream_details u sid rawT = Except.error PyErr.typeError) ∧
    (∀ (u : PyStr) (item : CatalogItem) (n : PyStr)
        (tune : PyStr → RawResult (List StreamEntry)),
      item.type = audioType → item.name = some n →
      (tune item.preset_id).isBad = true →
      get_radios u (RawResult.valid (some [item])) tune =
        Except.error PyErr.typeError) := by
  refine ⟨?_, ?_, ?_, ?_, ?_⟩
  · intro β ep u p raw hbad
    cases raw with
    | falsy => exact ⟨rfl, rfl⟩
    | withErr b => exact ⟨rfl, rfl⟩
    | valid b => simp [RawResult.isBad] at hbad
  · intro u rawB tune hbad
    cases rawB with
    | falsy => rfl
    | withErr b => rfl
    | valid b => simp [RawResult.isBad] at hbad
  · intro u rid rawD tune hbad
    cases rawD with
    | falsy => rfl
    | withErr b => rfl
    | valid b => simp [RawResult.isBad] at hbad
  · intro u sid rawT hbad
    cases rawT with
    | falsy => rfl
    | withErr b => rfl
    | valid b => simp [RawResult.isBad] at hbad
  · intro u item n tune htype hname hbad
    have hfilter : List.filter (fun it => it.type == audioType) [item] = [item] := by
      simp [List.filter, htype]
    have hf : parse_radio item
        (get_stream_urls u item.preset_id (tune item.preset_id)).result =
        Except.error PyErr.typeError := by
      cases htu : tune item.preset_id with
      | valid b => rw [htu] at hbad; simp [RawResult.isBad] at hbad
      | falsy => simp [get_stream_urls, get_data, parse_radio, hname]
      | withErr b => simp [get_stream_urls, get_data, parse_radio, hname]
    simp only [get_radios, get_data]
    rw [hfilter]
    exact exceptMapM_singleton_error _ item PyErr.typeError hf

/-- C1 counterexample: for the `Tune.ashx` envelope carrying an `error`
key, the façade method `get_stream_details` raises a `TypeError` (it
subscripts the `None` sentinel) instead of returning an empty result. -/
theorem error_envelope_counterexample :
    get_stream_details "u".data "12345".data
      (RawResult.withErr (none : Option (List StreamEntry))) =
      Except.error PyErr.typeError := by decide

/-- C1 witness: concrete instances of the amended behavior. -/
theorem error_envelope_behavior_witness :
    (get_data browseEndpoint "u".data ([] : Params)
        (RawResult.falsy : RawResult (List CatalogItem))).result = none ∧
    get_radios "u".data (RawResult.withErr none)
      (fun _ => RawResult.valid (some [])) = Except.ok [] ∧
    get_radio "u".data "1".data (RawResult.falsy : RawResult (List DescribeNode))
      (fun _ => RawResult.valid (some [])) = Except.ok none ∧
    get_stream_details "u".data "9".data
      (RawResult.falsy : RawResult (List StreamEntry)) =
      Except.error PyErr.typeError :=
  ⟨(error_envelope_behavior.1 (List CatalogItem) browseEndpoint "u".data []
      RawResult.falsy (by decide)).1,
   error_envelope_behavior.2.1 "u".data (RawResult.withErr none)
     (fun _ => RawResult.valid (some [])) (by decide),
   error_envelope_behavior.2.2.1 "u".data "1".data RawResult.falsy
     (fun _ => RawResult.valid (some [])) (by decide),
   error_envelope_behavior.2.2.2.1 "u".data "9".data RawResult.falsy (by decide)⟩

/-- C2 (confirmed): a parsed Radio's name is the item's `name` field
verbatim when present, and otherwise is derived from `text` exactly as the
spec words it (segment after the first `" | "`, truncated at the first
`" ("`). -/
theorem parse_radio_name_spec (item : CatalogItem)
    (si : Option (Option (List StreamEntry))) (r : Radio)
    (h : parse_radio item si = Except.ok r) :
    (∀ n, item.name = some n → r.name = n) ∧
    (item.name = none → ∀ t, item.text = some t → r.name = nameDerivationSpec t) := by
  have hh := parse_radio_ok_name item si r h
  exact ⟨hh.1, fun hn t ht => (hh.2.1 hn t ht).trans rfl⟩

/-- C2 witness: the spec's example, `text="Jazz FM | Smooth Jazz (128k aac)"`
with no `name` field, parses to the name `"Smooth Jazz"`. -/
theorem parse_radio_name_spec_witness :
    parse_radio jazzItem (some (some [])) = Except.ok jazzRadio ∧
    jazzRadio.name = "Smooth Jazz".data := by
  have h : parse_radio jazzItem (some (some [])) = Except.ok jazzRadio := by decide
  refine ⟨h, ?_⟩
  have h2 := (parse_radio_name_spec jazzItem (some (some [])) jazzRadio h).2 rfl
    ("Jazz FM | Smooth Jazz (128k aac)".data) rfl
  rw [h2]
  decide

/-- C3 (confirmed): on a valid stream listing, `get_stream_details` returns
exactly the selection the spec describes: split the id on `"--"`, return
the first entry matching the encoding discriminator (or the first entry
unconditionally when none was supplied) with the constants 44100/16, and an
empty result when no entry matches. -/
theorem get_stream_details_spec (u sid : PyStr) (entries : List StreamEntry) :
    get_stream_details u sid (RawResult.valid (some entries)) =
      Except.ok (resolveStreamSpec sid entries) := by
  simp only [get_stream_details, resolveStreamSpec, get_stream_urls, get_data, splitStreamId]
  cases hd : (if (pySplit sepDashes sid).length > 1
      then ((pySplit sepDashes sid).get? 1).getD [] else []) with
  | nil => simp [find?_const_true]
  | cons c cs => simp

/-- C4 (confirmed): every stream variant's quality is the spec's mapping of
its entry's `media_type` (`aac` to LOSSY_AAC, `ogg` to LOSSY_OGG, anything
else to LOSSY_MP3). -/
theorem parse_radio_quality_spec (item : CatalogItem) (entries : List StreamEntry)
    (r : Radio) (h : parse_radio item (some (some entries)) = Except.ok r) :
    r.provider_ids.map StreamVariant.quality =
      entries.map (fun s => qualitySpec s.media_type) := by
  rw [(parse_radio_ok_fields item entries r h).2.1]
  simp [List.map_map]
  intro a _
  rfl

/-- C4 witness: aac, ogg and wma entries map to LOSSY_AAC, LOSSY_OGG and
LOSSY_MP3 respectively. -/
theorem parse_radio_quality_spec_witness :
    parse_radio c4Item (some (some c4Entries)) = Except.ok c4Radio ∧
    c4Radio.provider_ids.map StreamVariant.quality =
      [TrackQuality.LOSSY_AAC, TrackQuality.LOSSY_OGG, TrackQuality.LOSSY_MP3] := by
  have h : parse_radio c4Item (some (some c4Entries)) = Except.ok c4Radio := by decide
  refine ⟨h, ?_⟩
  rw [parse_radio_quality_spec c4Item c4Entries c4Radio h]
  decide

/-- C5 (amended): the variant id built by `__parse_radio` is exactly
`station_id ++ "--" ++ media_type`, and splitting it in
`get_stream_details` recovers the pair provided the station id neither
contains `"--"` nor ends in `'-'` and the media type does not contain
`"--"`; for other inputs (e.g. station id `"a--b"`) recovery fails. -/
theorem composite_id_roundtrip :
    (∀ (item : CatalogItem) (entries : List StreamEntry) (r : Radio),
      parse_radio item (some (some entries)) = Except.ok r →
      r.provider_ids.map StreamVariant.item_id =
        entries.map (fun s => buildVariantId item.preset_id s.media_type)) ∧
    (∀ s m : PyStr, containsSeq sepDashes s = false → s.getLast? ≠ some '-' →
      containsSeq sepDashes m = false →
      splitStreamId (buildVariantId s m) = (s, m)) := by
  constructor
  · intro item entries r h
    rw [(parse_radio_ok_fields item entries r h).2.1]
    simp [List.map_map]
  · exact fun s m hs hlast hm => splitStreamId_roundtrip s m hs hlast hm

/-- C5 counterexample: for station id `"a--b"` and media type `"aac"` the
split of the built variant id does not recover the original pair. -/
theorem composite_id_roundtrip_counterexample :
    splitStreamId (buildVariantId "a--b".data "aac".data) ≠
      ("a--b".data, "aac".data) := by decide

/-- C5 witness: the spec's example `"12345"`/`"aac"` round-trips, and
`__parse_radio` builds exactly that composite id. -/
theorem composite_id_roundtrip_witness :
    splitStreamId (buildVariantId "12345".data "aac".data) =
      ("12345".data, "aac".data) ∧
    parse_radio c5Item (some (some [c5Entry])) = Except.ok c5Radio ∧
    c5Radio.provider_ids.map StreamVariant.item_id =
      [buildVariantId "12345".data "aac".data] := by
  have h : parse_radio c5Item (some (some [c5Entry])) = Except.ok c5Radio := by decide
  refine ⟨composite_id_roundtrip.2 "12345".data "aac".data
      (by decide) (by decide) (by decide), h, ?_⟩
  rw [composite_id_roundtrip.1 c5Item [c5Entry] c5Radio h]
  decide

/-- C6 (amended): a station whose stream listing comes back as an empty
listing yields a Radio with an empty `provider_ids` sequence, without an
error; but when the stream-listing call returns absent (the `None`
sentinel), `__parse_radio` raises a `TypeError` instead. -/
theorem stream_listing_soft_failure (item : CatalogItem)
    (h : item.name ≠ none ∨ item.text ≠ none) :
    (parse_radio item (some (some []))).toOption.map Radio.provider_ids = some [] ∧
    parse_radio item none = Except.error PyErr.typeError := by
  cases hn : item.name with
  | some n => constructor <;> simp [parse_radio, hn, Except.toOption]
  | none =>
    cases ht : item.text with
    | none =>
      rcases h with h | h
      · exact absurd hn h
      · exact absurd ht h
    | some t => constructor <;> simp [parse_radio, hn, ht, Except.toOption]

/-- C6 counterexample: on an absent stream listing `__parse_radio` raises a
`TypeError` rather than yielding a Radio with empty `provider_ids`. -/
theorem stream_listing_soft_failure_counterexample :
    parse_radio c6BadItem none = Except.error PyErr.typeError := by decide

/-- C6 witness: a concrete station with an empty stream listing parses to a
Radio with empty `provider_ids`, and raises on an absent listing. -/
theorem stream_listing_soft_failure_witness :
    (parse_radio c6GoodItem (some (some []))).toOption.map Radio.provider_ids =
      some [] ∧
    parse_radio c6GoodItem none = Except.error PyErr.typeError :=
  stream_listing_soft_failure c6GoodItem (Or.inl (by decide))

/-- C7 (amended): a successfully parsed Radio's name is non-empty provided
its source string is: the explicit `name` field when present, else the
value derived from `text`; for degenerate inputs (empty `name` field, or a
`text` whose derived segment is empty) the parsed name is empty. -/
theorem parsed_name_nonempty (item : CatalogItem)
    (si : Option (Option (List StreamEntry))) (r : Radio)
    (h : parse_radio item si = Except.ok r)
    (hname : ∀ n, item.name = some n → n ≠ [])
    (htext : item.name = none → ∀ t, item.text = some t → deriveNameFromText t ≠ []) :
    r.name ≠ [] := by
  have hh := parse_radio_ok_name item si r h
  cases hn : item.name with
  | some n => rw [hh.1 n hn]; exact hname n hn
  | none =>
    cases ht : item.text with
    | none => exact absurd ht (hh.2.2 hn)
    | some t => rw [hh.2.1 hn t ht]; exact htext hn t ht

/-- C7 counterexample: an item whose explicit `name` field is the empty
string parses successfully to a Radio whose name is empty. -/
theorem parsed_name_nonempty_counterexample :
    (parse_radio c7BadItem (some (some []))).toOption.map Radio.name = some [] := by
  decide

/-- C7 witness: a concrete item with a non-empty name field parses to a
non-empty name. -/
theorem parsed_name_nonempty_witness : c7wRadio.name ≠ [] := by
  have h : parse_radio c7wItem (some (some [])) = Except.ok c7wRadio := by decide
  exact parsed_name_nonempty c7wItem (some (some [])) c7wRadio h
    (fun n hn => by
      simp [c7wItem] at hn
      rw [← hn]
      decide)
    (fun hn => by simp [c7wItem] at hn)

/-- C8 (confirmed): the `setup` factory yields a provider exactly when the
enabled flag, username and password are all present and truthy, and yields
the "not available" signal whenever any of the three is missing. -/
theorem setup_requires_config (e : Option Bool) (u p : Option PyStr) :
    ((setup e u p).isSome = (truthyBool e && truthyStr u && truthyStr p)) ∧
    ((e = none ∨ u = none ∨ p = none) → setup e u p = none) := by
  constructor
  · by_cases h : (truthyBool e && truthyStr u && truthyStr p) = true
    · simp [setup, h]
    · simp only [Bool.not_eq_true] at h
      simp [setup, h]
  · rintro (rfl | rfl | rfl) <;> simp [setup, truthyBool, truthyStr]

/-- C8 witness: with the enabled flag missing, no provider is constructed. -/
theorem setup_requires_config_witness :
    setup none (some "u".data) (some "p".data) = none :=
  (setup_requires_config none (some "u".data) (some "p".data)).2 (Or.inl rfl)

/-- C10 (confirmed): every `__get_data` call mutates the caller's parameter
dict in place so that afterwards it binds `render`, `formats`, `username`
and `partnerId` to the protocol values while leaving other keys unchanged;
and a call made with the shared mutable default dict leaves it non-empty,
so a later call omitting `params` starts from (and preserves) the already
augmented mapping. -/
theorem get_data_params_effect :
    (∀ (β : Type) (ep u : PyStr) (p : Params) (raw : RawResult β),
      pyGet kRender (get_data ep u p raw).params = some vJson ∧
      pyGet kFormats (get_data ep u p raw).params = some vFormats ∧
      pyGet kUsername (get_data ep u p raw).params = some u ∧
      pyGet kPartnerId (get_data ep u p raw).params = some vPartnerId ∧
      (∀ k, k ≠ kRender → k ≠ kFormats → k ≠ kUsername → k ≠ kPartnerId →
        pyGet k (get_data ep u p raw).params = pyGet k p)) ∧
    (∀ (β : Type) (ep u : PyStr) (raw : RawResult β),
      (get_data ep u ([] : Params) raw).params ≠ []) ∧
    (∀ (β : Type) (ep ep2 u : PyStr) (raw raw2 : RawResult β),
      (get_data ep2 u (get_data ep u ([] : Params) raw).params raw2).params =
        (get_data ep u ([] : Params) raw).params) := by
  refine ⟨?_, ?_, ?_⟩
  · intro β ep u p raw
    rw [get_data_params]
    refine ⟨augment_render u p, augment_formats u p, augment_username u p,
      augment_partner u p, ?_⟩
    intro k h1 h2 h3 h4
    unfold augmentParams
    rw [pyGet_pySetItem_ne _ kPartnerId vPartnerId k h4,
        pyGet_pySetItem_ne _ kUsername u k h3,
        pyGet_pySetItem_ne _ kFormats vFormats k h2,
        pyGet_pySetItem_ne _ kRender vJson k h1]
  · intro β ep u raw
    rw [get_data_params, augmentParams_nil]
    simp
  · intro β ep ep2 u raw raw2
    rw [get_data_params, get_data_params]
    exact augmentParams_idem u

/-- C10 witness: a concrete `Tune.ashx` call binds `render` to `json` and
leaves the caller's `id` parameter in place. -/
theorem get_data_params_effect_witness :
    pyGet kRender (get_data tuneEndpoint "u".data [(kId, "1".data)]
      (RawResult.valid (some ([] : List StreamEntry)))).params = some vJson ∧
    pyGet kId (get_data tuneEndpoint "u".data [(kId, "1".data)]
      (RawResult.valid (some ([] : List StreamEntry)))).params = some "1".data := by
  refine ⟨(get_data_params_effect.1 (List StreamEntry) tuneEndpoint "u".data
      [(kId, "1".data)] (RawResult.valid (some []))).1, ?_⟩
  have h := (get_data_params_effect.1 (List StreamEntry) tuneEndpoint "u".data
      [(kId, "1".data)] (RawResult.valid (some []))).2.2.2.2 kId
      (by decide) (by decide) (by decide) (by decide)
  rw [h]
  decide

end TuneIn
